import Mathlib

/-!
Verification of the tdx2db bar-decoding / resampling / indicator pipeline.

Shallow embedding of `src/reader.py` and `src/processor.py`:
* prices, volumes and amounts are modelled as rationals,
* timestamps as minutes since a midnight-aligned epoch (1970-01-01),
* dates as day numbers since that epoch (`pd.to_datetime` of a date string
  gives midnight of that day, i.e. day * 1440 minutes),
* a pandas NaN cell is modelled as `none`,
* a pandas DataFrame as a structure of column lists (or a row list),
* a raised Python exception as `Except.error`.
-/

namespace Tdx2db

/-! ## Bars and the vendor decoder -/

/-- One decoded 5-minute (or daily) record as produced by the vendor
decoder, before `read_min_data` / `read_daily_data` attach the `code` and
`market` columns.  `dt` is the bar timestamp in minutes since the epoch.
`openv` models the `open` column (`open` is a reserved word in Lean). -/
structure RawBar where
  dt : Nat
  openv : ℚ
  high : ℚ
  low : ℚ
  close : ℚ
  volume : ℚ
  amount : ℚ
deriving Repr, DecidableEq

/-- A bar after `data['code'] = code; data['market'] = market`
(`src/reader.py:146-147`, `:236-237`, `:119-120`). -/
structure Bar5 where
  dt : Nat
  openv : ℚ
  high : ℚ
  low : ℚ
  close : ℚ
  volume : ℚ
  amount : ℚ
  code : String
  market : Nat
deriving Repr, DecidableEq

/-- Attach `data['code'] = code; data['market'] = market`. -/
def RawBar.withCode (b : RawBar) (code : String) (market : Nat) : Bar5 :=
  { dt := b.dt, openv := b.openv, high := b.high, low := b.low, close := b.close,
    volume := b.volume, amount := b.amount, code := code, market := market }

/-! ## The resampling aggregator (`src/reader.py:166-200`, `:399-436`) -/

/-- Maximum of a list of rationals, `none` on the empty list (the NaN that
pandas `max` yields on an empty resample bucket). -/
def listMax : List ℚ → Option ℚ
  | [] => none
  | x :: xs => some (xs.foldl max x)

/-- Minimum of a list of rationals, `none` on the empty list. -/
def listMin : List ℚ → Option ℚ
  | [] => none
  | x :: xs => some (xs.foldl min x)

/-- Last element of a list, `none` on the empty list (pandas `last`
aggregation of a bucket). -/
def listLast {α : Type} : List α → Option α
  | [] => none
  | [x] => some x
  | _ :: x :: xs => listLast (x :: xs)

/-- One row of `data.resample(f'...min').agg(open:first, high:max, low:min,
close:last, amount:sum, volume:sum, code:first, market:first)` before
`dropna()`: pandas emits a row for every bucket between the first and last
input timestamp; `first`/`max`/`min`/`last` of an empty bucket are NaN
(`none` here) while `sum` of an empty bucket is `0`.  `dt` is the bucket
label, which is the bucket's left edge (pandas labels resampled buckets on
the left by default). -/
structure AggRow where
  dt : Nat
  openv : Option ℚ
  high : Option ℚ
  low : Option ℚ
  close : Option ℚ
  volume : ℚ
  amount : ℚ
  code : Option String
  market : Option Nat
deriving Repr, DecidableEq

/-- The bars of `bars` falling in the width-`w` minute bucket with index
`b`.  pandas `resample` buckets are left-closed and, for the widths used
here (15/30/60, all dividing 1440), aligned to midnight, so bar `x` lands
in bucket number `x.dt / w`. -/
def bucketBars (w : Nat) (bars : List Bar5) (b : Nat) : List Bar5 :=
  bars.filter (fun x => x.dt / w == b)

/-- Aggregate one bucket following the `agg` dictionary of
`read_min_data`. -/
def aggBucket (w : Nat) (bars : List Bar5) (b : Nat) : AggRow :=
  let bs := bucketBars w bars b
  { dt := b * w
    openv := bs.head?.map Bar5.openv
    high := listMax (bs.map Bar5.high)
    low := listMin (bs.map Bar5.low)
    close := (listLast bs).map Bar5.close
    volume := (bs.map Bar5.volume).sum
    amount := (bs.map Bar5.amount).sum
    code := bs.head?.map Bar5.code
    market := bs.head?.map Bar5.market }

/-- First bucket index produced by `resample`: the bucket of the smallest
input timestamp (only used on non-empty input). -/
def bucketLo (w : Nat) : List Bar5 → Nat
  | [] => 0
  | x :: xs => (xs.foldl (fun a y => min a y.dt) x.dt) / w

/-- Last bucket index produced by `resample`: the bucket of the largest
input timestamp. -/
def bucketHi (w : Nat) : List Bar5 → Nat
  | [] => 0
  | x :: xs => (xs.foldl (fun a y => max a y.dt) x.dt) / w

/-- Does a row survive `dropna()`?  pandas drops a row when any column is
NaN; the `sum` columns are never NaN, while the `first`/`max`/`min`/`last`
columns are NaN exactly on an empty bucket. -/
def aggRowComplete (r : AggRow) : Bool :=
  r.openv.isSome && r.high.isSome && r.low.isSome && r.close.isSome &&
    r.code.isSome && r.market.isSome

/-- Embedding of `data.resample(f'...min').agg(...).dropna()`
(`src/reader.py:166-200` and `:399-436`): emit every bucket from the first
to the last observed timestamp, then drop the all-NaN (empty-bucket)
rows. -/
def resampleDropna (w : Nat) (bars : List Bar5) : List AggRow :=
  match bars with
  | [] => []
  | _ :: _ =>
    let lo := bucketLo w bars
    let hi := bucketHi w bars
    ((List.range (hi + 1 - lo)).map (fun k => aggBucket w bars (lo + k))).filter
      aggRowComplete

/-- The concrete one-symbol 5-minute series of spec §8: bars timestamped
09:35, 09:40, 09:45, 09:50 (expressed here in minutes of the day:
575, 580, 585, 590).  The spec gives no per-bar amounts, so they are 0. -/
def c1bars : List Bar5 :=
  [ { dt := 575, openv := 10, high := 102/10, low := 99/10, close := 101/10,
      volume := 100, amount := 0, code := "000001", market := 0 },
    { dt := 580, openv := 101/10, high := 103/10, low := 10, close := 102/10,
      volume := 150, amount := 0, code := "000001", market := 0 },
    { dt := 585, openv := 102/10, high := 102/10, low := 10, close := 1005/100,
      volume := 80, amount := 0, code := "000001", market := 0 },
    { dt := 590, openv := 1005/100, high := 1015/100, low := 10, close := 101/10,
      volume := 90, amount := 0, code := "000001", market := 0 } ]

/-! ## The filesystem readers (`src/reader.py`) -/

/-- Filesystem model: maps a path to the decoded record list of the vendor
file stored at that path (`none` means the file does not exist).

Modelled from the spec: the vendor binary decoders themselves (the
`pytdx` reader objects used at `src/reader.py:46-49`) are not code of this
repository.  Per spec §4.1 decoding is a deterministic pure function of
the file bytes ("re-decoding the same file must always yield identical bar
values") and a zero-length file yields zero records, so a file is
identified with its decoded record list. -/
def FileSys : Type := String → Option (List RawBar)

/-- Python `'sz' if market == 0 else 'sh'`. -/
def market_folder (market : Nat) : String := if market = 0 then "sz" else "sh"

/-- Python `code[-6:]`: the last six characters (the whole string when it
is shorter). -/
def codeSuffix6 (s : String) : String := ⟨s.data.drop (s.data.length - 6)⟩

/-- Python `str(pure_code).zfill(6)`. -/
def zfill6 (s : String) : String := ⟨List.replicate (6 - s.data.length) '0' ++ s.data⟩

/-- Embedding of `TdxDataReader.read_daily_data` (`src/reader.py:96-121`):
truncate an exchange-qualified code to its last 6 characters, look up the
`.day` file, decode it and attach `code`/`market` columns. -/
def read_daily_data (fs : FileSys) (market : Nat) (code : String) :
    Except String (List Bar5) :=
  let mf := market_folder market
  let code := if 6 < code.length then codeSuffix6 code else code
  let path := mf ++ "/lday/" ++ mf ++ code ++ ".day"
  match fs path with
  | none => .error ("FileNotFoundError: " ++ path)
  | some recs => .ok (recs.map (fun r => r.withCode code market))

/-- Embedding of `TdxDataReader.read_5min_data` (`src/reader.py:210-259`).
After decoding, the function evaluates the f-string
`f"... {data.index[0]} ~ {data.index[-1]}"` for a debug log
(`src/reader.py:254`); on a frame with zero rows `data.index[0]` raises
`IndexError` before anything is returned. -/
def read_5min_data (fs : FileSys) (market : Nat) (code : String) :
    Except String (List Bar5) :=
  let mf := market_folder market
  let code := if 6 < code.length then codeSuffix6 code else code
  let path := mf ++ "/fzline/" ++ mf ++ code ++ ".lc5"
  match fs path with
  | none => .error ("FileNotFoundError: " ++ path)
  | some recs =>
    let data := recs.map (fun r => r.withCode code market)
    match data with
    | [] => .error "IndexError: index 0 is out of bounds"
    | _ :: _ => .ok data

/-- Embedding of `TdxDataReader.read_min_data` (`src/reader.py:123-208`):
read the 5-minute file (note: this function does NOT truncate long codes,
`src/reader.py:137`), evaluate the same `data.index[0]` debug f-string
(`src/reader.py:164`), then resample to 15/30/60 minutes. -/
def read_min_data (fs : FileSys) (market : Nat) (code : String) :
    Except String (List (List AggRow)) :=
  let mf := market_folder market
  let path := mf ++ "/fzline/" ++ mf ++ code ++ ".lc5"
  match fs path with
  | none => .error ("FileNotFoundError: " ++ path)
  | some recs =>
    let data := recs.map (fun r => r.withCode code market)
    match data with
    | [] => .error "IndexError: index 0 is out of bounds"
    | _ :: _ =>
      .ok [resampleDropna 15 data, resampleDropna 30 data, resampleDropna 60 data]

/-! ## The catalog scanner (`src/reader.py:51-94`) -/

/-- The language of the regular expression `^(000|001|002|300)\d{3}$` used
for the Shenzhen (market 0) board filter (`src/reader.py:76`). -/
def szCodeMatch (s : String) : Bool :=
  ((s.data.take 3 == ['0','0','0']) || (s.data.take 3 == ['0','0','1']) ||
   (s.data.take 3 == ['0','0','2']) || (s.data.take 3 == ['3','0','0'])) &&
  (s.data.drop 3).length == 3 && (s.data.drop 3).all Char.isDigit

/-- The language of the regular expression `^(60|688)\d{4}$` used for the
Shanghai (market 1) board filter (`src/reader.py:88`): either `60`
followed by exactly four digits (six characters in total), or `688`
followed by exactly four digits (seven characters in total). -/
def shCodeMatch (s : String) : Bool :=
  ((s.data.take 2 == ['6','0']) && (s.data.drop 2).length == 4 &&
    (s.data.drop 2).all Char.isDigit) ||
  ((s.data.take 3 == ['6','8','8']) && (s.data.drop 3).length == 4 &&
    (s.data.drop 3).all Char.isDigit)

/-- One catalog entry (`stocks.append(...)`, `src/reader.py:77`, `:89`).
The display name uses ASCII stand-ins "SZA"/"SHA" for the two-character
Chinese prefixes in the source. -/
structure StockEntry where
  code : String
  name : String
deriving Repr, DecidableEq

/-- Embedding of `TdxDataReader.get_stock_list` (`src/reader.py:51-94`).
`szStems` / `shStems` are the stems of the `*.day` files found under each
market's `lday` directory, `none` modelling a missing directory.  Each
stem's last six characters are zero-filled to six and matched against the
market's regex. -/
def get_stock_list (szStems shStems : Option (List String)) :
    Except String (List StockEntry) :=
  if szStems.isNone && shStems.isNone then
    .error "FileNotFoundError: no stock data directory"
  else
    let sz := (szStems.getD []).filter (fun code => szCodeMatch (zfill6 (codeSuffix6 code)))
    let sh := (shStems.getD []).filter (fun code => shCodeMatch (zfill6 (codeSuffix6 code)))
    let stocks := sz.map (fun code => StockEntry.mk code ("SZA" ++ code)) ++
                  sh.map (fun code => StockEntry.mk code ("SHA" ++ code))
    if stocks.isEmpty then .error "FileNotFoundError: no stock files found"
    else .ok stocks

/-! ## The processor (`src/processor.py`) -/

/-- A frame as consumed by `DataProcessor.process_min_data` /
`process_daily_data`: one list per numeric column (a `none` entry models a
NaN cell), the `code` column, and the appended moving-average columns
keyed by their period. -/
structure ProcFrame where
  codes : List String
  openv : List (Option ℚ)
  high : List (Option ℚ)
  low : List (Option ℚ)
  close : List (Option ℚ)
  volume : List (Option ℚ)
  amount : List (Option ℚ)
  mas : List (Nat × List (Option ℚ)) := []
deriving Repr, DecidableEq

/-- Worker for `ffill`: `acc` is the most recent non-missing value seen so
far (`none` before any). -/
def ffillGo (acc : Option ℚ) : List (Option ℚ) → List (Option ℚ)
  | [] => []
  | none :: xs => acc :: ffillGo acc xs
  | some v :: xs => some v :: ffillGo (some v) xs

/-- Embedding of `Series.ffill()` as called at `src/processor.py:47` and
`:124`: applied to the whole column, with no grouping of any kind. -/
def ffill (xs : List (Option ℚ)) : List (Option ℚ) := ffillGo none xs

/-- The last non-`none` entry of a list, if any. -/
def lastSome : List (Option ℚ) → Option ℚ
  | [] => none
  | none :: xs => lastSome xs
  | some v :: xs =>
    match lastSome xs with
    | some w => some w
    | none => some v

/-- pandas `rolling(window=p).mean()` evaluated at the last position of the
prefix `grp`: defined when the prefix holds at least `p` entries and the
last `p` of them are all non-NaN (`min_periods` defaults to the window
size), in which case it is their arithmetic mean. -/
def rollingMeanAt (p : Nat) (grp : List (Option ℚ)) : Option ℚ :=
  if p ≤ grp.length then
    let win := grp.drop (grp.length - p)
    if win.all Option.isSome then some ((win.reduceOption).sum / p) else none
  else none

/-- Embedding of
`df.groupby('code')['close'].transform(lambda x: x.rolling(window=p).mean())`
(`src/processor.py:52-72`, `:129-149`): the value at row `i` is the rolling
mean over the sub-series of rows sharing row `i`'s code, evaluated at row
`i`'s position inside that sub-series — i.e. over the code-matching rows
among the first `i + 1` rows. -/
def maTransform (p : Nat) (codes : List String) (closes : List (Option ℚ)) :
    List (Option ℚ) :=
  (List.range codes.length).map (fun i =>
    match codes.get? i with
    | none => none
    | some c =>
      rollingMeanAt p
        ((((codes.zip closes).take (i + 1)).filter (fun r => r.1 == c)).map Prod.snd))

/-- The moving-average periods, in the order the source computes them
(`src/processor.py:129-149`). -/
def maPeriods : List Nat := [13, 21, 34, 55, 89, 144, 233, 5, 10, 60, 250]

/-- The missing-value loop (`src/processor.py:119-124`): forward-fill each
of the six numeric columns. -/
def ffill_step (df : ProcFrame) : ProcFrame :=
  { df with
    openv := ffill df.openv
    high := ffill df.high
    low := ffill df.low
    close := ffill df.close
    volume := ffill df.volume
    amount := ffill df.amount }

/-- The indicator block (`src/processor.py:126-149`): attach one
moving-average column per period, computed from the (already
forward-filled) close column, grouped by code. -/
def ma_step (df : ProcFrame) : ProcFrame :=
  { df with mas := maPeriods.map (fun p => (p, maTransform p df.codes df.close)) }

/-- A Python call frame holding the caller's argument object and the local
`processed_df` / `filtered_df` the function works on.  `df.copy()` makes
`working` an independent deep copy of the input; every later statement of
the source mutates or rebinds only `working`. -/
structure CallState (α : Type) where
  inputObj : α
  working : α
deriving Repr

/-- Entering a call: both names denote the caller's object. -/
def callOn {α : Type} (df : α) : CallState α := ⟨df, df⟩

/-- Step `processed_df = df.copy()` (deep copy, the pandas default). -/
def stCopy {α : Type} (s : CallState α) : CallState α := { s with working := s.inputObj }

/-- An in-place mutation of (or rebinding to) the working object. -/
def stWork {α : Type} (f : α → α) (s : CallState α) : CallState α :=
  { s with working := f s.working }

/-- Call `DataProcessor.process_min_data` (`src/processor.py:77-151`):
early return of the input when the frame is empty, else copy, forward-fill
the numeric columns, attach the moving averages.  (The column renaming at
`:94-110` maps every present column to itself or to its field name here,
and the datetime reconstruction at `:113-117` touches no column this
embedding carries, so both are identities on this representation.) -/
def process_min_data_call (df : ProcFrame) : CallState ProcFrame :=
  if df.codes.isEmpty then callOn df
  else stWork ma_step (stWork ffill_step (stCopy (callOn df)))

/-- The value returned by `process_min_data`. -/
def process_min_data (df : ProcFrame) : ProcFrame := (process_min_data_call df).working

/-- Call `DataProcessor.process_daily_data` (`src/processor.py:16-74`); its missing-value and indicator code is line-for-line the same as
`process_min_data`'s. -/
def process_daily_data_call (df : ProcFrame) : CallState ProcFrame :=
  if df.codes.isEmpty then callOn df
  else stWork ma_step (stWork ffill_step (stCopy (callOn df)))

/-- The value returned by `process_daily_data`. -/
def process_daily_data (df : ProcFrame) : ProcFrame := (process_daily_data_call df).working

/-! ## The date filters (`src/processor.py:154-223`) -/

/-- A row as seen by the filter functions: `datetime` in minutes since the
epoch, `date` as a day number, and the symbol code. -/
structure DataRow where
  datetime : Nat
  date : Nat
  code : String
deriving Repr, DecidableEq

/-- A frame as seen by the filter functions.  The source branches on which
columns exist (`'date' in filtered_df.columns`, ...), so column presence
is explicit. -/
structure DataFrameF where
  hasDate : Bool
  hasDatetime : Bool
  hasCode : Bool
  rows : List DataRow
deriving Repr, DecidableEq

/-- `pd.to_datetime('YYYY-MM-DD')`: midnight of that day, in minutes. -/
def toDatetime (day : Nat) : Nat := day * 1440

/-- Apply an optional lower bound then an optional upper bound, both
inclusive, to `key` — the shape of every date branch of `filter_data` /
`filter_data_min`. -/
def boundFilter (lo hi : Option Nat) (key : DataRow → Nat) (rows : List DataRow) :
    List DataRow :=
  let rows := match lo with
    | some s => rows.filter (fun r => s ≤ key r)
    | none => rows
  match hi with
  | some e => rows.filter (fun r => key r ≤ e)
  | none => rows

/-- The `'date' in columns` branch of `filter_data`
(`src/processor.py:175-179`): bounds compared against the `date` column
(modelled at day granularity). -/
def date_filter_step (s e : Option Nat) (df : DataFrameF) : DataFrameF :=
  if df.hasDate then { df with rows := boundFilter s e DataRow.date df.rows } else df

/-- The `'datetime' in columns` branch of `filter_data`
(`src/processor.py:182-186`): bounds parsed to midnight and compared
against the full timestamp. -/
def datetime_filter_step (s e : Option Nat) (df : DataFrameF) : DataFrameF :=
  if df.hasDatetime then
    { df with rows := boundFilter (s.map toDatetime) (e.map toDatetime) DataRow.datetime df.rows }
  else df

/-- The date branch of `filter_data_min` (`src/processor.py:213-217`): the
guard checks for a `date` column but the comparison uses the `datetime`
column. -/
def min_date_filter_step (s e : Option Nat) (df : DataFrameF) : DataFrameF :=
  if df.hasDate then
    { df with rows := boundFilter (s.map toDatetime) (e.map toDatetime) DataRow.datetime df.rows }
  else df

/-- The `if codes and 'code' in columns` branch (`src/processor.py:189-190`,
`:220-221`); Python's `if codes` is false for both `None` and `[]`, merged
here into the empty list. -/
def codes_filter_step (codes : List String) (df : DataFrameF) : DataFrameF :=
  if !codes.isEmpty && df.hasCode then
    { df with rows := df.rows.filter (fun r => codes.contains r.code) }
  else df

/-- Call `DataProcessor.filter_data` (`src/processor.py:154-192`). -/
def filter_data_call (df : DataFrameF) (s e : Option Nat) (codes : List String) :
    CallState DataFrameF :=
  if df.rows.isEmpty then callOn df
  else
    stWork (codes_filter_step codes)
      (stWork (datetime_filter_step s e)
        (stWork (date_filter_step s e) (stCopy (callOn df))))

/-- The value returned by `filter_data`. -/
def filter_data (df : DataFrameF) (s e : Option Nat) (codes : List String) :
    DataFrameF :=
  (filter_data_call df s e codes).working

/-- Call `DataProcessor.filter_data_min` (`src/processor.py:194-223`). -/
def filter_data_min_call (df : DataFrameF) (s e : Option Nat) (codes : List String) :
    CallState DataFrameF :=
  if df.rows.isEmpty then callOn df
  else
    stWork (codes_filter_step codes)
      (stWork (min_date_filter_step s e) (stCopy (callOn df)))

/-- The value returned by `filter_data_min`. -/
def filter_data_min (df : DataFrameF) (s e : Option Nat) (codes : List String) :
    DataFrameF :=
  (filter_data_min_call df s e codes).working

/-! ## The batch driver (`src/reader.py:309-353`) -/

/-- Outcome of processing one symbol
(`self.process_single_stock_min_data(...)` at `src/reader.py:343`): normal
return, a raised `FileNotFoundError`, or any other raised exception. -/
inductive SymOutcome
  | ok
  | fileNotFound (msg : String)
  | otherError (msg : String)
deriving Repr, DecidableEq

/-- The per-symbol `try/except` of the loop body (`src/reader.py:341-348`):
a `FileNotFoundError` hits the bare `continue`; any other exception is
logged and also falls through to `continue`; a normal return proceeds to
the next iteration.  Returns the log lines emitted and whether the loop
proceeds to the next symbol — every branch proceeds. -/
def handle_symbol (code : String) : SymOutcome → List String × Bool
  | .ok => ([], true)
  | .fileNotFound _ => ([], true)
  | .otherError msg => (["error processing " ++ code ++ " minute data: " ++ msg], true)

/-- The `for _, stock in iterator:` loop (`src/reader.py:333-348`),
recording each attempted symbol with its outcome; a `false` continue flag
would abort the remainder. -/
def run_symbols (step : String → SymOutcome) :
    List String → List (String × SymOutcome) × Bool
  | [] => ([], true)
  | code :: rest =>
    let r := step code
    if (handle_symbol code r).2 then
      let res := run_symbols step rest
      ((code, r) :: res.1, res.2)
    else ([(code, r)], false)

/-- Embedding of `TdxDataReader.process_and_store_min_data`
(`src/reader.py:309-353`): obtaining the catalog may itself raise, which
the outer `except` turns into `return False`; otherwise the loop runs over
every catalog symbol and the function returns `True`. -/
def process_and_store_min_data (catalog : Except String (List String))
    (step : String → SymOutcome) : Bool :=
  match catalog with
  | .error _ => false
  | .ok stocks => (run_symbols step stocks).2

/-! ## Concrete frames and filesystems used by the theorems -/

/-- A filesystem holding one existing but empty (zero-record) 5-minute
file for sz000001. -/
def emptyLc5Fs : FileSys :=
  fun p => if p = "sz/fzline/sz000001.lc5" then some [] else none

/-- The close values of the rows sharing code `c`, in row order (the
group that `groupby('code')` forms for `c`). -/
def groupCloses (codes : List String) (closes : List (Option ℚ)) (c : String) :
    List (Option ℚ) :=
  ((codes.zip closes).filter (fun r => r.1 == c)).map Prod.snd

/-- The position of row `i` inside its own code group: the number of
earlier rows carrying code `c`. -/
def groupPos (codes : List String) (c : String) (i : Nat) : Nat :=
  ((codes.take i).filter (fun x => x == c)).length

/-- A daily-style frame (as produced by the daily pipeline: a `datetime`
column, no `date` column) with three midnight-stamped bars dated
2024-01-01 / 02 / 03 (days 19723-19725 of the epoch). -/
def dailyJanFrame : DataFrameF :=
  { hasDate := false
    hasDatetime := true
    hasCode := true
    rows := [ { datetime := 19723 * 1440, date := 19723, code := "000001" },
              { datetime := 19724 * 1440, date := 19724, code := "000001" },
              { datetime := 19725 * 1440, date := 19725, code := "000001" } ] }

/-- A minute-style frame (as produced by
`process_single_stock_min_data`, which adds a `date` column) holding one
bar at 2024-01-02 09:35. -/
def minuteJanFrame : DataFrameF :=
  { hasDate := true
    hasDatetime := true
    hasCode := true
    rows := [ { datetime := 19724 * 1440 + 575, date := 19724, code := "000001" } ] }

/-- A two-row batch holding two different symbols, the second of which has
a missing close and no prior close of its own. -/
def c4frame : ProcFrame :=
  { codes := ["000001", "600000"]
    openv := [some 1, some 1]
    high := [some 1, some 1]
    low := [some 1, some 1]
    close := [some 1, none]
    volume := [some 1, some 1]
    amount := [some 1, some 1] }

/-- A per-symbol step where the second symbol's file is missing and the
third symbol fails with a decode error. -/
def c8step : String → SymOutcome := fun c =>
  if c = "000001" then .ok
  else if c = "000002" then .fileNotFound "no such file" else .otherError "decode error"

/-- A ten-row single-symbol batch with constant close 5.0. -/
def c5codes : List String :=
  ["000001", "000001", "000001", "000001", "000001",
   "000001", "000001", "000001", "000001", "000001"]

/-- The closes of the ten-row batch. -/
def c5closes : List (Option ℚ) :=
  [some 5, some 5, some 5, some 5, some 5,
   some 5, some 5, some 5, some 5, some 5]

/-! ## Theorems -/

/-- Evaluation of the resampler on the spec §8 series: the 09:45 bar does
not fall in the left-closed bucket starting 09:30 but in the one starting
09:45. -/
lemma resampleDropna_c1bars :
    resampleDropna 15 c1bars =
      [ { dt := 570, openv := some 10, high := some (103/10), low := some (99/10),
          close := some (102/10), volume := 250, amount := 0,
          code := some "000001", market := some 0 },
        { dt := 585, openv := some (102/10), high := some (102/10), low := some 10,
          close := some (101/10), volume := 170, amount := 0,
          code := some "000001", market := some 0 } ] := by
  simp [c1bars, resampleDropna, bucketLo, bucketHi, aggBucket, bucketBars,
    aggRowComplete, listMax, listMin, listLast, List.filter, List.range,
    List.range.loop, AggRow.mk.injEq, max_def, min_def]
  norm_num

/-- C1 (counterexample): aggregating the spec §8 five-minute series to 15
minutes yields no bucket labelled 09:30 with close 10.05 and volume 330
— the bucket starting 09:30 does not cover the first three bars. -/
theorem c1_claim_fails_on_spec_series :
    ¬ ∃ r ∈ resampleDropna 15 c1bars,
        r.dt = 570 ∧ r.close = some (201/20) ∧ r.volume = 330 := by
  rw [resampleDropna_c1bars]
  rintro ⟨r, hmem, hdt, hclose, hvol⟩
  rcases List.mem_cons.mp hmem with rfl | hmem2
  · norm_num at hvol
  · rcases List.mem_cons.mp hmem2 with rfl | h
    · norm_num at hvol
    · exact absurd h (List.not_mem_nil r)

/-- C1 (amended): aggregating the spec §8 five-minute series to 15 minutes
yields exactly two buckets: the bucket starting 09:30 covers only the
09:35 and 09:40 bars (open 10.0, high 10.3, low 9.9, close 10.2, volume
250), while the 09:45 and 09:50 bars fall in the separately-reported
bucket starting 09:45 (open 10.2, high 10.2, low 10.0, close 10.1, volume
170). -/
theorem c1_agg_two_buckets :
    resampleDropna 15 c1bars =
      [ { dt := 570, openv := some 10, high := some (103/10), low := some (99/10),
          close := some (102/10), volume := 250, amount := 0,
          code := some "000001", market := some 0 },
        { dt := 585, openv := some (102/10), high := some (102/10), low := some 10,
          close := some (101/10), volume := 170, amount := 0,
          code := some "000001", market := some 0 } ] :=
  resampleDropna_c1bars

/-- C3: the Shanghai regex `^(60|688)\d{4}$` cannot match any six-digit
code through its `688` alternative (that branch needs seven characters),
so a STAR-board code such as 688001 is excluded from the catalog, while
600001 is kept and 900001 is excluded; on the Shenzhen side 000001 is kept
and 900001 excluded. -/
theorem c3_star_board_excluded :
    shCodeMatch (zfill6 (codeSuffix6 "sh688001")) = false ∧
    shCodeMatch (zfill6 (codeSuffix6 "sh600001")) = true ∧
    shCodeMatch (zfill6 (codeSuffix6 "sh900001")) = false ∧
    szCodeMatch (zfill6 (codeSuffix6 "sz000001")) = true ∧
    szCodeMatch (zfill6 (codeSuffix6 "sz900001")) = false ∧
    get_stock_list (some []) (some ["sh688001"]) =
      .error "FileNotFoundError: no stock files found" ∧
    get_stock_list (some []) (some ["sh600001"]) =
      .ok [ { code := "sh600001", name := "SHA" ++ "sh600001" } ] := by
  refine ⟨by decide, by decide, by decide, by decide, by decide, rfl, rfl⟩

/-- C7: a 5-minute file that exists but holds zero records makes both
`read_5min_data` and `read_min_data` raise (the `data.index[0]` debug
f-string at `src/reader.py:254` / `:164`), instead of returning an empty
series. -/
theorem c7_empty_file_raises :
    read_5min_data emptyLc5Fs 0 "000001" =
      .error "IndexError: index 0 is out of bounds" ∧
    read_min_data emptyLc5Fs 0 "000001" =
      .error "IndexError: index 0 is out of bounds" := by
  exact ⟨rfl, rfl⟩

/-- C9: all four processing/filter calls leave the caller's argument
object unchanged — the copy made on entry receives every mutation, and the
return value is built from that copy. -/
theorem c9_inputs_unchanged (pf : ProcFrame) (df : DataFrameF)
    (s e : Option Nat) (codes : List String) :
    ((process_min_data_call pf).inputObj = pf ∧
      (process_min_data_call pf).working = process_min_data pf) ∧
    ((process_daily_data_call pf).inputObj = pf ∧
      (process_daily_data_call pf).working = process_daily_data pf) ∧
    ((filter_data_call df s e codes).inputObj = df ∧
      (filter_data_call df s e codes).working = filter_data df s e codes) ∧
    ((filter_data_min_call df s e codes).inputObj = df ∧
      (filter_data_min_call df s e codes).working = filter_data_min df s e codes) := by
  refine ⟨⟨?_, rfl⟩, ⟨?_, rfl⟩, ⟨?_, rfl⟩, ⟨?_, rfl⟩⟩
  · by_cases h : pf.codes.isEmpty <;>
      simp [process_min_data_call, h, callOn, stCopy, stWork]
  · by_cases h : pf.codes.isEmpty <;>
      simp [process_daily_data_call, h, callOn, stCopy, stWork]
  · by_cases h : df.rows.isEmpty <;>
      simp [filter_data_call, h, callOn, stCopy, stWork]
  · by_cases h : df.rows.isEmpty <;>
      simp [filter_data_min_call, h, callOn, stCopy, stWork]

/-- C10: for a code longer than six characters, `read_daily_data` and
`read_5min_data` use only its last six characters to locate the vendor
file, so the exchange-qualified and bare forms of a code read the same
file and return the same bars. -/
theorem c10_code_suffix (fs : FileSys) (market : Nat) (code : String)
    (h : 6 < code.length) :
    read_daily_data fs market code = read_daily_data fs market (codeSuffix6 code) ∧
    read_5min_data fs market code = read_5min_data fs market (codeSuffix6 code) := by
  have hd : code.length = code.data.length := rfl
  have hlen : (codeSuffix6 code).length = 6 := by
    show (codeSuffix6 code).data.length = 6
    simp only [codeSuffix6, List.length_drop]
    omega
  constructor
  · simp [read_daily_data, h, hlen]
  · simp [read_5min_data, h, hlen]

/-- Membership in a `boundFilter` result: both bounds are inclusive and an
absent bound imposes nothing. -/
lemma mem_boundFilter (lo hi : Option Nat) (key : DataRow → Nat)
    (rows : List DataRow) (r : DataRow) :
    r ∈ boundFilter lo hi key rows ↔
      r ∈ rows ∧ (∀ s, lo = some s → s ≤ key r) ∧ (∀ e, hi = some e → key r ≤ e) := by
  rcases lo with _ | s <;> rcases hi with _ | e <;>
    simp [boundFilter, List.mem_filter, and_assoc] <;> tauto

/-- C2 (counterexample): filtering the minute frame that holds a bar dated
2024-01-02 (at 09:35) with start = end = 2024-01-02 returns nothing — the
end bound parses to midnight and excludes every intraday bar of that
day — instead of exactly the 2024-01-02 bar. -/
theorem c2_intraday_bar_excluded :
    (∃ r ∈ minuteJanFrame.rows, r.date = 19724) ∧
    (filter_data_min minuteJanFrame (some 19724) (some 19724) []).rows = [] := by
  constructor
  · exact ⟨⟨19724 * 1440 + 575, 19724, "000001"⟩, by decide, rfl⟩
  · decide

/-- C2 (amended): both filters compare inclusively against the bar's raw
timestamp, with each bound parsed as midnight of its date, and an absent
bound leaves that side unbounded; a series of midnight-stamped daily bars
therefore behaves as claimed (start = end = 2024-01-02 keeps exactly the
2024-01-02 bar), but an intraday bar of the end date with a time of day
after midnight is excluded by the end bound. -/
theorem c2_filter_inclusive_bounds :
    (∀ (df : DataFrameF) (s e : Option Nat) (r : DataRow), df.hasDate = true →
      (r ∈ (filter_data_min df s e []).rows ↔
        r ∈ df.rows ∧ (∀ sd, s = some sd → toDatetime sd ≤ r.datetime) ∧
          (∀ ed, e = some ed → r.datetime ≤ toDatetime ed))) ∧
    (∀ (df : DataFrameF) (s e : Option Nat) (r : DataRow),
        df.hasDate = false → df.hasDatetime = true →
      (r ∈ (filter_data df s e []).rows ↔
        r ∈ df.rows ∧ (∀ sd, s = some sd → toDatetime sd ≤ r.datetime) ∧
          (∀ ed, e = some ed → r.datetime ≤ toDatetime ed))) ∧
    (filter_data dailyJanFrame (some 19724) (some 19724) []).rows =
      [ { datetime := 19724 * 1440, date := 19724, code := "000001" } ] := by
  refine ⟨?_, ?_, by decide⟩
  · intro df s e r hD
    by_cases hemp : df.rows.isEmpty
    · have hnil : df.rows = [] := List.isEmpty_iff.mp hemp
      rcases s with _ | sd <;> rcases e with _ | ed <;>
        simp [filter_data_min, filter_data_min_call, callOn, hemp, hnil]
    · rcases s with _ | sd <;> rcases e with _ | ed <;>
        simp [filter_data_min, filter_data_min_call, hemp, callOn, stCopy, stWork,
          codes_filter_step, min_date_filter_step, boundFilter, hD,
          List.mem_filter, and_assoc] <;> tauto
  · intro df s e r hD hDT
    by_cases hemp : df.rows.isEmpty
    · have hnil : df.rows = [] := List.isEmpty_iff.mp hemp
      rcases s with _ | sd <;> rcases e with _ | ed <;>
        simp [filter_data, filter_data_call, callOn, hemp, hnil]
    · rcases s with _ | sd <;> rcases e with _ | ed <;>
        simp [filter_data, filter_data_call, hemp, callOn, stCopy, stWork,
          codes_filter_step, date_filter_step, datetime_filter_step, boundFilter,
          hD, hDT, List.mem_filter, and_assoc] <;> tauto

/-- Witness for C2 at the one-bar minute frame. -/
theorem c2_witness :
    minuteJanFrame.hasDate = true ∧
    (DataRow.mk (19724 * 1440 + 575) 19724 "000001" ∈
        (filter_data_min minuteJanFrame (some 19724) (some 19724) []).rows ↔
      DataRow.mk (19724 * 1440 + 575) 19724 "000001" ∈ minuteJanFrame.rows ∧
        (∀ sd, (some 19724 : Option Nat) = some sd →
          toDatetime sd ≤ 19724 * 1440 + 575) ∧
        (∀ ed, (some 19724 : Option Nat) = some ed →
          19724 * 1440 + 575 ≤ toDatetime ed)) :=
  ⟨rfl, c2_filter_inclusive_bounds.1 minuteJanFrame (some 19724) (some 19724)
    (DataRow.mk (19724 * 1440 + 575) 19724 "000001") rfl⟩

/-- C4 (counterexample): the second row belongs to a different symbol and
has no prior non-missing close of its own symbol, yet `process_min_data`
forward-fills its close from the first symbol's bar — the fill is not
per-symbol. -/
theorem c4_fill_crosses_symbols :
    c4frame.codes.get? 0 ≠ c4frame.codes.get? 1 ∧
    c4frame.close.get? 1 = some none ∧
    (process_min_data c4frame).close.get? 1 = some (some 1) := by
  exact ⟨by decide, rfl, rfl⟩

/-- The last non-missing entry of an all-missing list is `none`. -/
lemma lastSome_of_all_none :
    ∀ l : List (Option ℚ), l.all Option.isNone = true → lastSome l = none := by
  intro l h
  induction l with
  | nil => rfl
  | cons x t ih =>
    cases x with
    | none =>
      have := ih (by simpa [List.all_cons] using h)
      simpa [lastSome] using this
    | some v => simp [List.all_cons, Option.isNone] at h

/-- Value of the forward-fill worker at index `i`: the most recent
non-missing entry among the first `i + 1` cells, defaulting to the carried
value. -/
lemma ffillGo_get? :
    ∀ (xs : List (Option ℚ)) (acc : Option ℚ) (i : Nat), i < xs.length →
      (ffillGo acc xs).get? i =
        some (match lastSome (xs.take (i + 1)) with
              | some v => some v
              | none => acc) := by
  intro xs
  induction xs with
  | nil => intro acc i h; simp at h
  | cons x t ih =>
    intro acc i h
    cases x with
    | none =>
      cases i with
      | zero => simp [ffillGo, lastSome]
      | succ n =>
        have hn : n < t.length := by simpa using h
        simp only [ffillGo, List.get?_cons_succ, List.take_succ_cons, lastSome]
        exact ih acc n hn
    | some v =>
      cases i with
      | zero => simp [ffillGo, lastSome]
      | succ n =>
        have hn : n < t.length := by simpa using h
        simp only [ffillGo, List.get?_cons_succ, List.take_succ_cons, lastSome]
        rw [ih (some v) n hn]
        cases hL : lastSome (t.take (n + 1)) <;> simp [hL]

/-- C4 (amended): forward-fill is applied to each numeric column of the
whole batch in row order, with no symbol grouping: each cell becomes the
most recent preceding non-missing value of that column regardless of
symbol, cells with no preceding non-missing value anywhere in the batch
stay missing, and the moving averages are computed from the close column
after this fill. -/
theorem c4_ffill_semantics :
    (∀ (xs : List (Option ℚ)) (i : Nat), i < xs.length →
      (ffill xs).get? i = some (lastSome (xs.take (i + 1)))) ∧
    (∀ (xs : List (Option ℚ)) (i : Nat), i < xs.length →
      (xs.take (i + 1)).all Option.isNone = true → (ffill xs).get? i = some none) ∧
    (∀ df : ProcFrame, df.codes.isEmpty = false →
      (process_min_data df).close = ffill df.close ∧
      (process_min_data df).mas =
        maPeriods.map (fun p => (p, maTransform p df.codes (ffill df.close)))) := by
  have h1 : ∀ (xs : List (Option ℚ)) (i : Nat), i < xs.length →
      (ffill xs).get? i = some (lastSome (xs.take (i + 1))) := by
    intro xs i h
    rw [ffill, ffillGo_get? xs none i h]
    cases hL : lastSome (xs.take (i + 1)) <;> simp
  refine ⟨h1, ?_, ?_⟩
  · intro xs i h hall
    rw [h1 xs i h, lastSome_of_all_none _ hall]
  · intro df hne
    constructor <;>
      simp [process_min_data, process_min_data_call, hne, ma_step, ffill_step,
        stWork, stCopy, callOn]

/-- Witness for C4: in the batch `[none, some 2, none]` position 2 is
filled with the value from position 1. -/
theorem c4_witness :
    2 < ([none, some (2:ℚ), none] : List (Option ℚ)).length ∧
    (ffill [none, some (2:ℚ), none]).get? 2 =
      some (lastSome (([none, some (2:ℚ), none] : List (Option ℚ)).take (2 + 1))) :=
  ⟨by decide, c4_ffill_semantics.1 [none, some (2:ℚ), none] 2 (by decide)⟩

/-- Every branch of the per-symbol handler proceeds to the next symbol. -/
lemma handle_symbol_continues (code : String) (r : SymOutcome) :
    (handle_symbol code r).2 = true := by
  cases r <;> rfl

/-- The driver loop attempts every symbol in catalog order and finishes
normally no matter what the per-symbol outcomes are. -/
lemma run_symbols_spec (step : String → SymOutcome) (stocks : List String) :
    (run_symbols step stocks).1.map Prod.fst = stocks ∧
    (run_symbols step stocks).2 = true := by
  induction stocks with
  | nil => exact ⟨rfl, rfl⟩
  | cons c rest ih =>
    simp [run_symbols, handle_symbol_continues, ih.1, ih.2]

/-- C8: when the catalog is obtained, the driver attempts every symbol in
order — a missing file or any other per-symbol failure only skips that
symbol — and the run reports success; only failing to obtain the catalog
makes the run report failure. -/
theorem c8_driver_isolation (catalog : Except String (List String))
    (step : String → SymOutcome) :
    (∀ stocks, catalog = .ok stocks →
      process_and_store_min_data catalog step = true ∧
      (run_symbols step stocks).1.map Prod.fst = stocks) ∧
    (∀ e, catalog = .error e → process_and_store_min_data catalog step = false) := by
  constructor
  · rintro stocks rfl
    exact ⟨by simp [process_and_store_min_data, (run_symbols_spec step stocks).2],
      (run_symbols_spec step stocks).1⟩
  · rintro e rfl
    rfl

/-- Witness for C8 on a three-symbol catalog with one missing file and one
decode failure. -/
theorem c8_witness :
    (Except.ok ["000001", "000002", "300001"] : Except String (List String)) =
      .ok ["000001", "000002", "300001"] ∧
    process_and_store_min_data (.ok ["000001", "000002", "300001"]) c8step = true ∧
    (run_symbols c8step ["000001", "000002", "300001"]).1.map Prod.fst =
      ["000001", "000002", "300001"] :=
  ⟨rfl,
    ((c8_driver_isolation (.ok ["000001", "000002", "300001"]) c8step).1 _ rfl).1,
    ((c8_driver_isolation (.ok ["000001", "000002", "300001"]) c8step).1 _ rfl).2⟩

/-- Witness for C10 at the exchange-qualified code "sz000001". -/
theorem c10_witness :
    6 < "sz000001".length ∧
    read_daily_data (fun _ => none) 0 "sz000001" =
      read_daily_data (fun _ => none) 0 (codeSuffix6 "sz000001") :=
  ⟨by decide, (c10_code_suffix (fun _ => none) 0 "sz000001" (by decide)).1⟩

/-- Every surviving resample row comes from a non-empty bucket: some input
bar's bucket start is the row's label. -/
lemma resampleDropna_mem (w : Nat) (bars : List Bar5) (r : AggRow)
    (hr : r ∈ resampleDropna w bars) :
    ∃ x ∈ bars, x.dt / w * w = r.dt := by
  cases bars with
  | nil => simp [resampleDropna] at hr
  | cons b bs =>
    rw [resampleDropna] at hr
    rcases List.mem_filter.mp hr with ⟨hmem, hcomp⟩
    rcases List.mem_map.mp hmem with ⟨k, _, hak⟩
    have hne : bucketBars w (b :: bs) (bucketLo w (b :: bs) + k) ≠ [] := by
      intro hnil
      rw [← hak] at hcomp
      simp [aggRowComplete, aggBucket, hnil] at hcomp
    rcases List.exists_mem_of_ne_nil _ hne with ⟨x, hx⟩
    rcases List.mem_filter.mp hx with ⟨hxbars, hxcond⟩
    refine ⟨x, hxbars, ?_⟩
    rw [beq_iff_eq] at hxcond
    rw [hxcond, ← hak]
    simp [aggBucket]

/-- The bucket labels of the resample output are pairwise distinct. -/
lemma resampleDropna_nodup_div (w : Nat) (hw0 : 0 < w) (bars : List Bar5) :
    ((resampleDropna w bars).map (fun r => r.dt / w)).Nodup := by
  cases bars with
  | nil => simp [resampleDropna]
  | cons b bs =>
    rw [resampleDropna]
    have h1 : List.Sublist
        ((((List.range (bucketHi w (b :: bs) + 1 - bucketLo w (b :: bs))).map
          (fun k => aggBucket w (b :: bs) (bucketLo w (b :: bs) + k))).filter
          aggRowComplete).map (fun r => r.dt / w))
        (((List.range (bucketHi w (b :: bs) + 1 - bucketLo w (b :: bs))).map
          (fun k => aggBucket w (b :: bs) (bucketLo w (b :: bs) + k))).map
          (fun r => r.dt / w)) :=
      List.Sublist.map _ (List.filter_sublist _)
    have h2 : (((List.range (bucketHi w (b :: bs) + 1 - bucketLo w (b :: bs))).map
          (fun k => aggBucket w (b :: bs) (bucketLo w (b :: bs) + k))).map
          (fun r => r.dt / w)) =
        (List.range (bucketHi w (b :: bs) + 1 - bucketLo w (b :: bs))).map
          (fun k => bucketLo w (b :: bs) + k) := by
      rw [List.map_map]
      refine List.map_congr_left fun k _ => ?_
      simp [aggBucket, Nat.mul_div_cancel _ hw0]
    have h3 : ((List.range (bucketHi w (b :: bs) + 1 - bucketLo w (b :: bs))).map
        (fun k => bucketLo w (b :: bs) + k)).Nodup :=
      (List.nodup_range _).map (fun a b hab => by omega)
    rw [h2] at h1
    exact h3.sublist h1

/-- C6: every output row of a 15/30/60-minute aggregation corresponds to a
bucket holding at least one input bar, and the number of output rows is at
most the number of distinct non-empty buckets. -/
theorem c6_no_empty_buckets (w : Nat) (bars : List Bar5)
    (hw : w = 15 ∨ w = 30 ∨ w = 60) :
    (∀ r ∈ resampleDropna w bars, ∃ x ∈ bars, x.dt / w * w = r.dt) ∧
    (resampleDropna w bars).length ≤ ((bars.map (fun x => x.dt / w)).dedup).length := by
  have hw0 : 0 < w := by rcases hw with rfl | rfl | rfl <;> norm_num
  refine ⟨fun r hr => resampleDropna_mem w bars r hr, ?_⟩
  have hsub : ((resampleDropna w bars).map (fun r => r.dt / w)).toFinset ⊆
      (bars.map (fun x => x.dt / w)).toFinset := by
    intro a ha
    rw [List.mem_toFinset] at ha ⊢
    rcases List.mem_map.mp ha with ⟨r, hr, rfl⟩
    rcases resampleDropna_mem w bars r hr with ⟨x, hx, hxe⟩
    have hdiv : r.dt / w = x.dt / w := by rw [← hxe, Nat.mul_div_cancel _ hw0]
    rw [hdiv]
    exact List.mem_map.mpr ⟨x, hx, rfl⟩
  calc (resampleDropna w bars).length
      = ((resampleDropna w bars).map (fun r => r.dt / w)).length := by
        rw [List.length_map]
    _ = ((resampleDropna w bars).map (fun r => r.dt / w)).toFinset.card :=
        (List.toFinset_card_of_nodup (resampleDropna_nodup_div w hw0 bars)).symm
    _ ≤ (bars.map (fun x => x.dt / w)).toFinset.card := Finset.card_le_card hsub
    _ = ((bars.map (fun x => x.dt / w)).dedup).length := List.card_toFinset _

/-- Witness for C6 on the concrete spec §8 series at 15 minutes. -/
theorem c6_witness :
    ((15 : Nat) = 15 ∨ (15 : Nat) = 30 ∨ (15 : Nat) = 60) ∧
    (resampleDropna 15 c1bars).length ≤
      ((c1bars.map (fun x => x.dt / 15)).dedup).length :=
  ⟨Or.inl rfl, (c6_no_empty_buckets 15 c1bars (Or.inl rfl)).2⟩

/-- Taking commutes with zipping. -/
lemma take_zip_eq :
    ∀ (n : Nat) (as : List String) (bs : List (Option ℚ)),
      (as.zip bs).take n = (as.take n).zip (bs.take n) := by
  intro n
  induction n with
  | zero => simp
  | succ m ih =>
    intro as bs
    cases as with
    | nil => simp
    | cons a t =>
      cases bs with
      | nil => simp
      | cons b tb => simp [List.zip_cons_cons, List.take_succ_cons, ih]

/-- Filtering a zip on its first component counts like filtering the first
list, as long as the second list is at least as long. -/
lemma zip_filter_fst_length (c : String) :
    ∀ (as : List String) (bs : List (Option ℚ)), as.length ≤ bs.length →
      ((as.zip bs).filter (fun r => r.1 == c)).length =
        (as.filter (fun x => x == c)).length := by
  intro as
  induction as with
  | nil => intro bs _; simp
  | cons a t ih =>
    intro bs h
    cases bs with
    | nil => simp at h
    | cons b tb =>
      have h' : t.length ≤ tb.length := by simpa using h
      by_cases hc : (a == c) = true
      · simp [List.zip_cons_cons, List.filter_cons, hc, ih tb h']
      · simp only [Bool.not_eq_true] at hc
        simp [List.zip_cons_cons, List.filter_cons, hc, ih tb h']

/-- Looking up one of the periods in the attached indicator columns. -/
lemma lookup_map_periods (p : Nat) (hp : p ∈ maPeriods)
    (f : Nat → List (Option ℚ)) :
    (maPeriods.map (fun q => (q, f q))).lookup p = some (f p) := by
  simp only [maPeriods] at hp
  fin_cases hp <;> rfl

/-- C5: for each configured period, the attached column is the per-code
grouped rolling mean of the close column, and its value at any row equals
the arithmetic mean of that same symbol's closes at the group positions
from j - p + 1 to j (where j is the row's position within its symbol's
series) once j reaches p - 1, and is missing before that; bars of other
symbols never enter the window. -/
theorem c5_ma_window (p : Nat) (hp : p ∈ maPeriods)
    (codes : List String) (closes : List (Option ℚ))
    (hlen : codes.length = closes.length)
    (hall : ∀ x ∈ closes, x.isSome = true)
    (i : Nat) (hi : i < codes.length) (c : String)
    (hc : codes.get? i = some c) :
    (∀ df : ProcFrame, df.codes.isEmpty = false →
      (process_min_data df).mas.lookup p =
        some (maTransform p df.codes (ffill df.close))) ∧
    (maTransform p codes closes).get? i =
      some (if p ≤ groupPos codes c i + 1 then
              some ((((groupCloses codes closes c).take (groupPos codes c i + 1)).drop
                      (groupPos codes c i + 1 - p)).reduceOption.sum / (p : ℚ))
            else none) := by
  constructor
  · intro df hne
    have hstep : (process_min_data df).mas =
        maPeriods.map (fun q => (q, maTransform q df.codes (ffill df.close))) := by
      simp [process_min_data, process_min_data_call, hne, ma_step, ffill_step,
        stWork, stCopy, callOn]
    rw [hstep, lookup_map_periods p hp]
  · have hc' : codes[i]? = some c := by
      rw [← List.get?_eq_getElem?]
      exact hc
    have hrange : (maTransform p codes closes).get? i =
        some (rollingMeanAt p ((((codes.zip closes).take (i + 1)).filter
          (fun r => r.1 == c)).map Prod.snd)) := by
      rw [maTransform, List.get?_map, List.get?_range hi]
      simp [hc']
    rw [hrange]
    congr 1
    have hlen1 : (codes.take (i + 1)).length ≤ (closes.take (i + 1)).length := by
      simp only [List.length_take]
      omega
    have hfiltlen : (((codes.zip closes).take (i + 1)).filter
        (fun r => r.1 == c)).length = groupPos codes c i + 1 := by
      rw [take_zip_eq, zip_filter_fst_length c _ _ hlen1]
      rw [List.take_succ, hc']
      simp [List.filter_append, groupPos]
    have hpfx : List.IsPrefix
        (((codes.zip closes).take (i + 1)).filter (fun r => r.1 == c))
        ((codes.zip closes).filter (fun r => r.1 == c)) :=
      List.IsPrefix.filter _ ( List.take_prefix (i + 1) (codes.zip closes))
    have hpref_eq : ((codes.zip closes).take (i + 1)).filter (fun r => r.1 == c) =
        ((codes.zip closes).filter (fun r => r.1 == c)).take
          (groupPos codes c i + 1) := by
      rw [ List.prefix_iff_eq_take.mp hpfx, hfiltlen]
    have hpref_g : ((((codes.zip closes).take (i + 1)).filter
        (fun r => r.1 == c)).map Prod.snd) =
        (groupCloses codes closes c).take (groupPos codes c i + 1) := by
      rw [hpref_eq, groupCloses, List.map_take]
    have hglen : ((groupCloses codes closes c).take
        (groupPos codes c i + 1)).length = groupPos codes c i + 1 := by
      rw [← hpref_g, List.length_map, hfiltlen]
    have hwin_all : (((groupCloses codes closes c).take
        (groupPos codes c i + 1)).drop
        (groupPos codes c i + 1 - p)).all Option.isSome = true := by
      rw [List.all_eq_true]
      intro x hx
      have hx1 : x ∈ (groupCloses codes closes c).take (groupPos codes c i + 1) :=
        List.drop_subset _ _ hx
      have hx2 : x ∈ groupCloses codes closes c := List.take_subset _ _ hx1
      rw [groupCloses] at hx2
      rcases List.mem_map.mp hx2 with ⟨pair, hpair, rfl⟩
      exact hall _ (List.of_mem_zip (List.mem_of_mem_filter hpair)).2
    rw [hpref_g]
    by_cases hpj : p ≤ groupPos codes c i + 1
    · simp only [rollingMeanAt, hglen, hpj, if_true, hwin_all, if_pos]
    · simp only [rollingMeanAt, hglen, hpj, if_false]

/-- Witness for C5 on the ten-bar constant-close batch: ma5 equals 5.0 at
index 4 and is missing at index 3. -/
theorem c5_witness :
    5 ∈ maPeriods ∧
    (maTransform 5 c5codes c5closes).get? 4 = some (some 5) ∧
    (maTransform 5 c5codes c5closes).get? 3 = some none := by
  have hall : ∀ x ∈ c5closes, x.isSome = true := by decide
  refine ⟨by decide, ?_, ?_⟩
  · have h := (c5_ma_window 5 (by decide) c5codes c5closes rfl hall 4 (by decide)
      "000001" (by decide)).2
    rw [h]
    norm_num [c5codes, c5closes, groupPos, groupCloses]
  · have h := (c5_ma_window 5 (by decide) c5codes c5closes rfl hall 3 (by decide)
      "000001" (by decide)).2
    rw [h]
    norm_num [c5codes, groupPos]

end Tdx2db
